import Mathlib

/-!
# Verification of the brand-forge generation pipeline

Shallow embedding of `services/geminiService.ts` and the brand-save handler of
`components/BrandManager.tsx`.  External effects (HTTP fetches, generative-model
calls, long-running video operations) are modelled as explicit oracle arguments:
a pure value describing what the external service returned for that call.  The
string manipulation, fallback logic, control flow and produced request payloads
are translated directly from the source.
-/

namespace BrandForge

/-- Substring containment, written on the underlying character lists
(models JavaScript `String.prototype.includes`). -/
def ContainsStr (s pat : String) : Prop := pat.data <:+: s.data

instance (s pat : String) : Decidable (ContainsStr s pat) :=
  List.decidableInfix pat.data s.data

/-- Executable substring test used where the source calls `.includes(...)`. -/
def strIncludes (s pat : String) : Bool := decide (ContainsStr s pat)

theorem containsStr_iff_strIncludes {s pat : String} :
    ContainsStr s pat ↔ strIncludes s pat = true := by
  simp [strIncludes]

theorem ContainsStr.appendLeft {t p : String} (h : ContainsStr t p) (s : String) :
    ContainsStr (s ++ t) p := by
  obtain ⟨u, v, huv⟩ := h
  exact ⟨s.data ++ u, v, by rw [String.data_append, ← huv]; simp⟩

theorem ContainsStr.appendRight {t p : String} (h : ContainsStr t p) (s : String) :
    ContainsStr (t ++ s) p := by
  obtain ⟨u, v, huv⟩ := h
  exact ⟨u, v ++ s.data, by rw [String.data_append, ← huv]; simp⟩

theorem containsStr_self (s : String) : ContainsStr s s := ⟨[], [], by simp⟩

/-- A pattern split as `p₁ ++ p₂` occurs in `a ++ b` whenever `p₁` ends `a`
and `p₂` starts `b`. -/
theorem containsStr_glue {a b p₁ p₂ : String}
    (h₁ : p₁.data <:+ a.data) (h₂ : p₂.data <+: b.data) :
    ContainsStr (a ++ b) (p₁ ++ p₂) := by
  obtain ⟨u, hu⟩ := h₁
  obtain ⟨v, hv⟩ := h₂
  refine ⟨u, v, ?_⟩
  rw [String.data_append, String.data_append, ← hu, ← hv]
  simp

/-- JavaScript truthiness of a string (`""` is falsy). -/
def jsTruthy (s : String) : Bool := s ≠ ""

/-- JavaScript truthiness of a possibly-absent string
(`undefined`/`null` and `""` are falsy). -/
def jsTruthyOpt (o : Option String) : Bool :=
  match o with
  | some s => jsTruthy s
  | none => false

/-- JavaScript `x || d` on a possibly-absent string. -/
def jsOr (o : Option String) (d : String) : String :=
  match o with
  | some s => if s = "" then d else s
  | none => d

/-- Models `s.split(',')[1]` used to strip the data-URL prologue off a base64
payload (an absent second chunk is JavaScript `undefined`, modelled as `""`). -/
def dataUrlPayload (s : String) : String := (s.splitOn ",").getD 1 ""

/-- Models JavaScript `s.startsWith(pat)` on the underlying character lists. -/
def strStartsWith (s pat : String) : Bool := pat.data.isPrefixOf s.data

/-! ## MediaFetchResolver: `fetchImageToBase64` (geminiService.ts lines 13-35) -/

/-- The observable parts of the `fetch` response the source inspects:
`response.ok`, the `content-type` header (absent is `null`), and the data URL
the `FileReader` would produce from the body. -/
structure HttpResponse where
  ok : Bool
  contentType : Option String
  dataUrl : String
deriving Repr, DecidableEq

/-- Shallow embedding of `fetchImageToBase64`.  The network call is the oracle
argument: `.error e` models a rejected fetch (caught by the source's
`try`/`catch`), `.ok r` a resolved response.  The source returns `undefined`
(here `none`) on a failed fetch, a non-2xx status, or a missing / non-image
`content-type` header; otherwise the reader's data URL. -/
def fetchImageToBase64 (fetchResult : Except String HttpResponse) : Option String :=
  match fetchResult with
  | .error _ => none
  | .ok response =>
    if !response.ok then none
    else
      match response.contentType with
      | none => none
      | some ct => if !strStartsWith ct "image/" then none else some response.dataUrl

/-! ## LogoResolver: `fetchLogoFromUrl` (geminiService.ts lines 37-66) -/

/-- The fixed fallback chain of logo sources built from the domain, in source
order: Google favicon service, DuckDuckGo icons, Clearbit. -/
def logoSources (domain : String) : List String :=
  [ "https://www.google.com/s2/favicons?domain=" ++ domain ++ "&sz=128",
    "https://icons.duckduckgo.com/ip3/" ++ domain ++ ".ico",
    "https://logo.clearbit.com/" ++ domain ]

/-- The `for (const logoUrl of sources)` loop: return the first source the
fetch oracle resolves, else `none`. -/
def tryLogoSources (fetch : String → Option String) : List String → Option String
  | [] => none
  | u :: rest =>
    match fetch u with
    | some r => some r
    | none => tryLogoSources fetch rest

/-- The list of sources the loop actually queries (each at most once, stopping
after the first success). -/
def queriedSources (fetch : String → Option String) : List String → List String
  | [] => []
  | u :: rest =>
    match fetch u with
    | some _ => [u]
    | none => u :: queriedSources fetch rest

/-- Shallow embedding of `fetchLogoFromUrl`.  `parsedHost` models
`new URL(websiteUrl).hostname`, which throws on an invalid URL — caught by the
source and turned into `undefined` (`none` here). -/
def fetchLogoFromUrl (parsedHost : Option String) (fetch : String → Option String) :
    Option String :=
  match parsedHost with
  | none => none
  | some domain => tryLogoSources fetch (logoSources domain)

theorem tryLogoSources_all_none {fetch : String → Option String} :
    ∀ {l : List String}, (∀ u ∈ l, fetch u = none) → tryLogoSources fetch l = none
  | [], _ => rfl
  | u :: rest, h => by
    have hu : fetch u = none := h u (by simp)
    simp only [tryLogoSources, hu]
    exact tryLogoSources_all_none fun v hv => h v (by simp [hv])

theorem queriedSources_take (fetch : String → Option String) :
    ∀ l : List String, ∃ k, queriedSources fetch l = l.take k
  | [] => ⟨0, rfl⟩
  | u :: rest => by
    cases hu : fetch u with
    | some r => exact ⟨1, by simp [queriedSources, hu]⟩
    | none =>
      obtain ⟨k, hk⟩ := queriedSources_take fetch rest
      exact ⟨k + 1, by simp [queriedSources, hu, hk]⟩

/-- **C5.**  For every URL passed to `fetchImageToBase64`: a network exception,
a non-2xx response, or a missing or non-image `content-type` header each yield
`undefined` (`none`).  The embedding is a total function into `Option`,
mirroring that the source's `try`/`catch` never lets an exception escape. -/
theorem C5_fetchImageToBase64_fails_closed :
    (∀ e, fetchImageToBase64 (.error e) = none) ∧
    (∀ r : HttpResponse, r.ok = false → fetchImageToBase64 (.ok r) = none) ∧
    (∀ r : HttpResponse, r.contentType = none → fetchImageToBase64 (.ok r) = none) ∧
    (∀ (r : HttpResponse) (ct : String), r.contentType = some ct →
      strStartsWith ct "image/" = false → fetchImageToBase64 (.ok r) = none) := by
  refine ⟨fun _ => rfl, fun r h => ?_, fun r h => ?_, fun r ct h hct => ?_⟩
  · simp [fetchImageToBase64, h]
  · cases hok : r.ok <;> simp [fetchImageToBase64, h, hok]
  · cases hok : r.ok <;> simp [fetchImageToBase64, h, hok, hct]

theorem C5_witness :
    fetchImageToBase64 (.error "network down") = none ∧
    fetchImageToBase64 (.ok ⟨false, some "image/png", "data:image/png;base64,AA"⟩) = none ∧
    fetchImageToBase64 (.ok ⟨true, none, "data:image/png;base64,AA"⟩) = none ∧
    fetchImageToBase64 (.ok ⟨true, some "text/html", "data:text/html;base64,AA"⟩) = none :=
  ⟨C5_fetchImageToBase64_fails_closed.1 "network down",
   C5_fetchImageToBase64_fails_closed.2.1 _ (by decide),
   C5_fetchImageToBase64_fails_closed.2.2.1 _ (by decide),
   C5_fetchImageToBase64_fails_closed.2.2.2 _ "text/html" (by decide) (by decide)⟩

/-- **C4.**  For every website reference, `fetchLogoFromUrl` derives the domain
and tries exactly the three sources in the fixed order favicon service,
icon-by-domain service, brand-logo-by-domain service; each source is consulted
at most once and the loop stops at the first success (the queried URLs form a
prefix of the source list); the first resolved image is returned; the result is
`none` exactly when all three sources fail, and also when the URL cannot be
parsed — the function is total, never raising. -/
theorem C4_fetchLogoFromUrl_fallback_chain :
    (∀ d, logoSources d =
      [ "https://www.google.com/s2/favicons?domain=" ++ d ++ "&sz=128",
        "https://icons.duckduckgo.com/ip3/" ++ d ++ ".ico",
        "https://logo.clearbit.com/" ++ d ]) ∧
    (∀ fetch d, ∃ k, queriedSources fetch (logoSources d) = (logoSources d).take k) ∧
    (∀ fetch d r, fetch ((logoSources d).get ⟨0, by simp [logoSources]⟩) = some r →
      fetchLogoFromUrl (some d) fetch = some r) ∧
    (∀ fetch d r, fetch ((logoSources d).get ⟨0, by simp [logoSources]⟩) = none →
      fetch ((logoSources d).get ⟨1, by simp [logoSources]⟩) = some r →
      fetchLogoFromUrl (some d) fetch = some r) ∧
    (∀ fetch d r, fetch ((logoSources d).get ⟨0, by simp [logoSources]⟩) = none →
      fetch ((logoSources d).get ⟨1, by simp [logoSources]⟩) = none →
      fetch ((logoSources d).get ⟨2, by simp [logoSources]⟩) = some r →
      fetchLogoFromUrl (some d) fetch = some r) ∧
    (∀ fetch d, (∀ u ∈ logoSources d, fetch u = none) →
      fetchLogoFromUrl (some d) fetch = none) ∧
    (∀ fetch, fetchLogoFromUrl none fetch = none) := by
  refine ⟨fun _ => rfl, fun fetch d => queriedSources_take fetch _,
    fun fetch d r h0 => ?_, fun fetch d r h0 h1 => ?_, fun fetch d r h0 h1 h2 => ?_,
    fun fetch d h => ?_, fun _ => rfl⟩
  · simp only [logoSources, List.get] at h0
    simp [fetchLogoFromUrl, logoSources, tryLogoSources, h0]
  · simp only [logoSources, List.get] at h0 h1
    simp [fetchLogoFromUrl, logoSources, tryLogoSources, h0, h1]
  · simp only [logoSources, List.get] at h0 h1 h2
    simp [fetchLogoFromUrl, logoSources, tryLogoSources, h0, h1, h2]
  · simp only [fetchLogoFromUrl]
    exact tryLogoSources_all_none h

theorem C4_witness :
    fetchLogoFromUrl (some "example.com")
      (fun u => if u = "https://icons.duckduckgo.com/ip3/example.com.ico"
        then some "data:image/png;base64,AA" else none) =
      some "data:image/png;base64,AA" ∧
    fetchLogoFromUrl (some "example.com") (fun _ => none) = none :=
  ⟨C4_fetchLogoFromUrl_fallback_chain.2.2.2.1 _ "example.com" _ (by decide) (by decide),
   C4_fetchLogoFromUrl_fallback_chain.2.2.2.2.2.1 _ "example.com" (by decide)⟩

/-! ## Data model (`types.ts`) -/

inductive AssetType where
  | MERCHANDISE
  | MARKETING
  | DIGITAL
  | VIDEO
deriving DecidableEq, Repr

structure BrandDNA where
  name : String
  description : String
  websiteUrl : Option String
  colors : List String
  typography : String
  visualEssence : String
  designSystem : String
  keywords : List String
  logoImage : Option String
deriving DecidableEq, Repr

structure Inspiration where
  id : String
  imageUrl : String
  description : String
  extractedCues : List String
deriving DecidableEq, Repr

/-! ## PromptComposer: `buildPrompt` (geminiService.ts lines 200-309) -/

/-- The `getGarmentDetails` closure inside `buildPrompt`: substring dispatch on
the lower-cased subtype. -/
def getGarmentDetails (subtype : String) : String :=
  let st := subtype.toLower
  if strIncludes st "hoodie" then
    "A pullover hoodie with a drawstring hood, kangaroo front pocket, and ribbed cuffs and hem. This is specifically a HOODIE with long sleeves and a hood, NOT a t-shirt."
  else if strIncludes st "t-shirt" || strIncludes st "tshirt" then
    "A short-sleeved t-shirt with a crew neck. This is specifically a T-SHIRT with short sleeves and no hood, NOT a hoodie."
  else if strIncludes st "cap" || strIncludes st "hat" then
    "A baseball cap with curved brim and adjustable back strap."
  else if strIncludes st "tote" then
    "A canvas tote bag with sturdy handles."
  else if strIncludes st "mug" then
    "A ceramic coffee mug with a handle."
  else "A " ++ subtype

/-- Shallow embedding of `buildPrompt`.  Template literals are reproduced with
their exact whitespace; `dna.colors[0] || "white"` / `dna.colors[1] || "black"`
become `jsOr`; the `console.log` calls do not affect the returned string and
are not modelled. -/
def buildPrompt (dna : BrandDNA) (inspirations : List Inspiration) (type : AssetType)
    (subtype : String) (specificInstruction : Option String) : String :=
  let inspirationCues :=
    String.intercalate "; " (inspirations.map fun i => String.intercalate ", " i.extractedCues)
  let primaryColor := jsOr dna.colors[0]? "white"
  let accentColor := jsOr dna.colors[1]? "black"
  let logoInstruction :=
    if jsTruthyOpt dna.logoImage then
      "IMPORTANT: Incorporate the provided Logo image into the design. It should be clearly visible, undistorted, and placed appropriately for this item."
    else
      "The design incorporates the brand name \"" ++ dna.name ++ "\" stylized as a logo."
  let basePrompt :=
    match type with
    | .MERCHANDISE =>
      "\n        CRITICAL INSTRUCTION: You MUST generate exactly a \"" ++ subtype
        ++ "\" and nothing else. Pay careful attention to the garment type.\n        \n        "
        ++ getGarmentDetails subtype
        ++ "\n        \n        PRODUCT DETAILS:\n        - Item: " ++ subtype
        ++ " (follow the exact specifications above)\n        - Base fabric/material color: "
        ++ primaryColor
        ++ "\n        - Features a bold, eye-catching graphic design printed on the front\n        - Material: High-quality, premium fabric/material with visible texture\n        - Photography style: Professional product photography, studio setting\n        - Background: Clean, neutral (white or light gray)\n        - Lighting: Soft, even studio lighting with subtle shadows\n        - Resolution: 4K quality with highly detailed fabric/material texture\n        \n        DESIGN ELEMENTS:\n        "
        ++ logoInstruction
        ++ "\n        - Design vibe: " ++ dna.visualEssence
        ++ "\n        - Accent color in design: " ++ accentColor
        ++ "\n        - Design should be centered and prominent\n        \n        CRITICAL: This must be a "
        ++ subtype ++ ", not any other garment type. Verify the garment matches \"" ++ subtype
        ++ "\" exactly.\n      "
    | .MARKETING =>
      "\n        A professional " ++ subtype ++ " design for the brand \"" ++ dna.name
        ++ "\".\n        Layout: Modern, clean, and high-impact.\n        " ++ logoInstruction
        ++ "\n        Visuals: Incorporate the brand colors (" ++ String.intercalate ", " dna.colors
        ++ ") and typography (" ++ dna.typography
        ++ ").\n        Content: It should convey the vibe: " ++ dna.visualEssence ++ ".\n      "
    | .DIGITAL =>
      "\n        A digital asset: " ++ subtype ++ " for the brand \"" ++ dna.name
        ++ "\".\n        Style: Optimized for screens, UI/UX friendly, digital art style.\n        "
        ++ logoInstruction
        ++ "\n        Colors: " ++ String.intercalate ", " dna.colors
        ++ ".\n        Vibe: " ++ dna.visualEssence ++ ".\n      "
    | .VIDEO =>
      "A creative brand asset (" ++ subtype ++ ") for \"" ++ dna.name ++ "\"."
  "\n    " ++ basePrompt ++ "\n    "
    ++ (if jsTruthyOpt specificInstruction then "Instruction: " ++ specificInstruction.getD "" else "")
    ++ "\n    \n    BRAND DNA CONTEXT:\n    - Keywords: " ++ String.intercalate ", " dna.keywords
    ++ "\n    \n    INSPIRATION CUES (Apply these artistic styles to the graphic design/layout):\n    "
    ++ inspirationCues
    ++ "\n    \n    REQUIREMENTS:\n    - Realism: Photorealistic (unless specified otherwise).\n    - Quality: Production ready, sharp focus.\n    - Consistency: Adhere strictly to the color palette.\n  "

/-- A concrete brand specification with an empty colors list, used for the
prompt-composer scenarios. -/
def dnaNoColors : BrandDNA :=
  { name := "Acme"
    description := "a demo brand"
    websiteUrl := none
    colors := []
    typography := "Sans"
    visualEssence := "sleek"
    designSystem := "rules"
    keywords := ["fresh"]
    logoImage := none }

theorem strSuffixData (a b : String) : b.data <:+ (a ++ b).data := by
  rw [String.data_append]; exact List.suffix_append _ _

theorem strPrefixData (a b : String) : a.data <+: (a ++ b).data := by
  rw [String.data_append]; exact List.prefix_append _ _

theorem suffix_data_append {p m : String} (h : p.data <:+ m.data) (z : String) :
    p.data <:+ (z ++ m).data := by
  rw [String.data_append]; exact h.trans (List.suffix_append _ _)

/-- With an empty colors list the marketing template joins the raw list,
emitting an empty parenthesized color list in its color clause. -/
theorem buildPrompt_marketing_empty_colors
    (n de ty ve ds : String) (w lo : Option String) (kw : List String)
    (insp : List Inspiration) (st : String) (si : Option String) :
    ContainsStr (buildPrompt ⟨n, de, w, [], ty, ve, ds, kw, lo⟩ insp .MARKETING st si)
      "the brand colors () and typography (" := by
  show ContainsStr
    ("\n    "
      ++ ("\n        A professional " ++ st ++ " design for the brand \"" ++ n
        ++ "\".\n        Layout: Modern, clean, and high-impact.\n        "
        ++ (if jsTruthyOpt lo then
              "IMPORTANT: Incorporate the provided Logo image into the design. It should be clearly visible, undistorted, and placed appropriately for this item."
            else "The design incorporates the brand name \"" ++ n ++ "\" stylized as a logo.")
        ++ "\n        Visuals: Incorporate the brand colors (" ++ ""
        ++ ") and typography (" ++ ty
        ++ ").\n        Content: It should convey the vibe: " ++ ve ++ ".\n      ")
      ++ "\n    "
      ++ (if jsTruthyOpt si then "Instruction: " ++ si.getD "" else "")
      ++ "\n    \n    BRAND DNA CONTEXT:\n    - Keywords: " ++ String.intercalate ", " kw
      ++ "\n    \n    INSPIRATION CUES (Apply these artistic styles to the graphic design/layout):\n    "
      ++ String.intercalate "; " (insp.map fun i => String.intercalate ", " i.extractedCues)
      ++ "\n    \n    REQUIREMENTS:\n    - Realism: Photorealistic (unless specified otherwise).\n    - Quality: Production ready, sharp focus.\n    - Consistency: Adhere strictly to the color palette.\n  ")
    "the brand colors () and typography ("
  rw [String.append_empty]
  refine ContainsStr.appendRight ?_ _
  refine ContainsStr.appendRight ?_ _
  refine ContainsStr.appendRight ?_ _
  refine ContainsStr.appendRight ?_ _
  refine ContainsStr.appendRight ?_ _
  refine ContainsStr.appendRight ?_ _
  refine ContainsStr.appendRight ?_ _
  refine ContainsStr.appendLeft ?_ _
  refine ContainsStr.appendRight ?_ _
  refine ContainsStr.appendRight ?_ _
  refine ContainsStr.appendRight ?_ _
  refine ContainsStr.appendRight ?_ _
  rw [show ("the brand colors () and typography (" : String)
      = "the brand colors (" ++ ") and typography (" from rfl]
  refine containsStr_glue ?_ (List.prefix_refl _)
  have hb : ("the brand colors (" : String).data
      <:+ ("\n        Visuals: Incorporate the brand colors (" : String).data :=
    strSuffixData "\n        Visuals: Incorporate " "the brand colors ("
  exact suffix_data_append hb _

/-- With an empty colors list the digital template joins the raw list,
emitting an empty color list in its `Colors:` clause. -/
theorem buildPrompt_digital_empty_colors
    (n de ty ve ds : String) (w lo : Option String) (kw : List String)
    (insp : List Inspiration) (st : String) (si : Option String) :
    ContainsStr (buildPrompt ⟨n, de, w, [], ty, ve, ds, kw, lo⟩ insp .DIGITAL st si)
      "Colors: ." := by
  show ContainsStr
    ("\n    "
      ++ ("\n        A digital asset: " ++ st ++ " for the brand \"" ++ n
        ++ "\".\n        Style: Optimized for screens, UI/UX friendly, digital art style.\n        "
        ++ (if jsTruthyOpt lo then
              "IMPORTANT: Incorporate the provided Logo image into the design. It should be clearly visible, undistorted, and placed appropriately for this item."
            else "The design incorporates the brand name \"" ++ n ++ "\" stylized as a logo.")
        ++ "\n        Colors: " ++ ""
        ++ ".\n        Vibe: " ++ ve ++ ".\n      ")
      ++ "\n    "
      ++ (if jsTruthyOpt si then "Instruction: " ++ si.getD "" else "")
      ++ "\n    \n    BRAND DNA CONTEXT:\n    - Keywords: " ++ String.intercalate ", " kw
      ++ "\n    \n    INSPIRATION CUES (Apply these artistic styles to the graphic design/layout):\n    "
      ++ String.intercalate "; " (insp.map fun i => String.intercalate ", " i.extractedCues)
      ++ "\n    \n    REQUIREMENTS:\n    - Realism: Photorealistic (unless specified otherwise).\n    - Quality: Production ready, sharp focus.\n    - Consistency: Adhere strictly to the color palette.\n  ")
    "Colors: ."
  rw [String.append_empty]
  refine ContainsStr.appendRight ?_ _
  refine ContainsStr.appendRight ?_ _
  refine ContainsStr.appendRight ?_ _
  refine ContainsStr.appendRight ?_ _
  refine ContainsStr.appendRight ?_ _
  refine ContainsStr.appendRight ?_ _
  refine ContainsStr.appendRight ?_ _
  refine ContainsStr.appendLeft ?_ _
  refine ContainsStr.appendRight ?_ _
  refine ContainsStr.appendRight ?_ _
  rw [show ("Colors: ." : String) = "Colors: " ++ "." from rfl]
  refine containsStr_glue ?_ ?_
  · have hb : ("Colors: " : String).data <:+ ("\n        Colors: " : String).data :=
      strSuffixData "\n        " "Colors: "
    exact suffix_data_append hb _
  · exact strPrefixData "." "\n        Vibe: "

/-- **C6 (counterexample).**  The claim says the prompt composer "never emits
an empty color clause ... for every asset category (merchandise, marketing,
digital)".  On a brand specification with an empty colors list, the marketing
prompt contains the empty color clause `the brand colors ()` and the digital
prompt contains the empty clause `Colors: .` — the white/black defaults are
only wired into the merchandise template. -/
theorem C6_counterexample :
    ContainsStr (buildPrompt dnaNoColors [] .MARKETING "Poster" none)
      "the brand colors () and typography (" ∧
    ContainsStr (buildPrompt dnaNoColors [] .DIGITAL "Banner" none) "Colors: ." :=
  ⟨buildPrompt_marketing_empty_colors "Acme" "a demo brand" "Sans" "sleek" "rules"
      none none ["fresh"] [] "Poster" none,
    buildPrompt_digital_empty_colors "Acme" "a demo brand" "Sans" "sleek" "rules"
      none none ["fresh"] [] "Banner" none⟩

/-- **C6 (amended).**  For a brand specification with an empty colors list the
defaults `"white"` (primary) and `"black"` (accent) are substituted only where
the primary/accent colors are used, i.e. in the merchandise template: the
merchandise prompt is identical to the one built with colors
`["white", "black"]`.  The marketing and digital templates join the raw colors
list and therefore emit an empty color clause when the list is empty. -/
theorem C6_buildPrompt_empty_colors_defaults
    (dna : BrandDNA) (insp : List Inspiration) (st : String) (si : Option String)
    (h : dna.colors = []) :
    buildPrompt dna insp .MERCHANDISE st si
        = buildPrompt { dna with colors := ["white", "black"] } insp .MERCHANDISE st si ∧
    ContainsStr (buildPrompt dna insp .MARKETING st si) "the brand colors () and typography (" ∧
    ContainsStr (buildPrompt dna insp .DIGITAL st si) "Colors: ." := by
  obtain ⟨n, de, w, cs, ty, ve, ds, kw, lo⟩ := dna
  obtain rfl : cs = [] := h
  exact ⟨rfl,
    buildPrompt_marketing_empty_colors n de ty ve ds w lo kw insp st si,
    buildPrompt_digital_empty_colors n de ty ve ds w lo kw insp st si⟩

theorem C6_witness :
    buildPrompt dnaNoColors [] .MERCHANDISE "Hoodie" none
        = buildPrompt { dnaNoColors with colors := ["white", "black"] } []
            .MERCHANDISE "Hoodie" none ∧
    ContainsStr (buildPrompt dnaNoColors [] .MARKETING "Hoodie" none)
      "the brand colors () and typography (" ∧
    ContainsStr (buildPrompt dnaNoColors [] .DIGITAL "Hoodie" none) "Colors: ." :=
  C6_buildPrompt_empty_colors_defaults dnaNoColors [] "Hoodie" none rfl

/-- **C9.**  `buildPrompt` is pure and deterministic: two invocations on
componentwise-equal inputs produce equal output strings.  In this embedding it
is a total function of its five arguments alone (the garment-phrasing lookup
`getGarmentDetails` is a static table; the source's `console.log` calls do not
influence the returned string). -/
theorem C9_buildPrompt_deterministic
    (dna₁ dna₂ : BrandDNA) (insp₁ insp₂ : List Inspiration) (t₁ t₂ : AssetType)
    (st₁ st₂ : String) (si₁ si₂ : Option String)
    (h₁ : dna₁ = dna₂) (h₂ : insp₁ = insp₂) (h₃ : t₁ = t₂) (h₄ : st₁ = st₂) (h₅ : si₁ = si₂) :
    buildPrompt dna₁ insp₁ t₁ st₁ si₁ = buildPrompt dna₂ insp₂ t₂ st₂ si₂ := by
  subst h₁ h₂ h₃ h₄ h₅; rfl

theorem C9_witness :
    buildPrompt dnaNoColors [] .MERCHANDISE "Hoodie" none
      = buildPrompt dnaNoColors [] .MERCHANDISE "Hoodie" none :=
  C9_buildPrompt_deterministic dnaNoColors dnaNoColors [] [] .MERCHANDISE .MERCHANDISE
    "Hoodie" "Hoodie" none none rfl rfl rfl rfl rfl

/-! ## DraftFanoutGenerator: `generateDrafts` (geminiService.ts lines 312-385) -/

/-- One entry of a request/response content list: inline image bytes and/or
text (`{ inlineData: ... }` / `{ text: ... }`). -/
structure Part where
  inlineData : Option String
  text : Option String
deriving DecidableEq, Repr

structure Variation where
  name : String
  instruction : String
deriving DecidableEq, Repr

/-- The four creative approaches of `generateDrafts` (lines 318-337). -/
def draftVariations (dna : BrandDNA) (inspirations : List Inspiration) : List Variation :=
  [ ⟨"Minimal",
      "Create a minimal, clean design with simple elements. Focus on typography and negative space. Keep it understated and elegant."⟩,
    ⟨"Bold",
      "Use the primary keywords: " ++ String.intercalate ", " (dna.keywords.take 2)
        ++ ". Make it bold and striking with strong visual elements."⟩,
    ⟨"Artistic",
      if inspirations.length > 0 then
        "Apply these visual styles heavily: "
          ++ (inspirations[0]?.map fun i =>
                String.intercalate ", " (i.extractedCues.take 3)).getD ""
          ++ ". Be creative and experimental."
      else
        "Creative interpretation of " ++ dna.visualEssence
          ++ ". Add artistic flair and unique styling."⟩,
    ⟨"Vibrant",
      "Emphasize the brand colors " ++ String.intercalate ", " dna.colors
        ++ ". Create a vibrant, energetic design with maximum visual impact."⟩ ]

/-- The parts shared by all variations: the logo (with a steering text part)
when present (lines 339-348). -/
def draftBaseParts (dna : BrandDNA) : List Part :=
  if jsTruthyOpt dna.logoImage then
    [ ⟨some (dataUrlPayload (dna.logoImage.getD "")), none⟩,
      ⟨none, some "Use the image above as the Brand Logo. Incorporate it into the design."⟩ ]
  else []

/-- The four outbound requests built by the fan-out (lines 350-368); they are
created together and joined with `Promise.all`. -/
def draftRequests (dna : BrandDNA) (inspirations : List Inspiration) (type : AssetType)
    (subtype : String) : List (List Part) :=
  (draftVariations dna inspirations).map fun v =>
    draftBaseParts dna
      ++ [⟨none, some (buildPrompt dna inspirations type subtype (some v.instruction))⟩]

/-- The image payloads collected from one settled response
(`res.candidates?.[0]?.content?.parts?.forEach(...)`, lines 373-381): every
`inlineData` part of the first candidate, wrapped as a data URL.  `none`
models a response with no candidates/content/parts. -/
def draftImagesOf (res : Option (List Part)) : List String :=
  (res.getD []).filterMap fun p =>
    p.inlineData.map fun d => "data:image/png;base64," ++ d

/-- Shallow embedding of `generateDrafts`: the service oracle `svc` maps each
request to the parts of its response's first candidate.  The images of all
four settled responses are concatenated in order and returned — there is no
throw on an empty result (lines 370-384). -/
def generateDrafts (dna : BrandDNA) (inspirations : List Inspiration) (type : AssetType)
    (subtype : String) (svc : List Part → Option (List Part)) : List String :=
  (((draftRequests dna inspirations type subtype).map svc).map draftImagesOf).flatten

theorem flatten_length_le_of_forall_le_one {α : Type} :
    ∀ L : List (List α), (∀ x ∈ L, x.length ≤ 1) → L.flatten.length ≤ L.length
  | [], _ => by simp
  | x :: L, h => by
    have hx : x.length ≤ 1 := h x (by simp)
    have hL := flatten_length_le_of_forall_le_one L fun y hy => h y (by simp [hy])
    simpa [Nat.add_comm] using Nat.add_le_add hx hL

/-- A service oracle whose responses carry no image payload. -/
def svcNoImages : List Part → Option (List Part) := fun _ => some [⟨none, some "no image"⟩]

/-- A service oracle whose responses each carry two image payloads in the
first candidate. -/
def svcTwoImages : List Part → Option (List Part) :=
  fun _ => some [⟨some "AAA", none⟩, ⟨some "BBB", none⟩]

/-- **C1 (counterexample).**  The claim says an all-failure fan-out "raises a
GenerationFailure rather than returning an empty result" and that the returned
list has at most 4 images.  On the code: when none of the 4 responses carries
an image payload, `generateDrafts` returns the empty list (its only `return`
is `return images`; there is no throw path), and a response whose first
candidate carries several `inlineData` parts contributes all of them, so 4
responses with 2 payloads each produce 8 images. -/
theorem C1_counterexample :
    generateDrafts dnaNoColors [] .MERCHANDISE "Hoodie" svcNoImages = [] ∧
    (generateDrafts dnaNoColors [] .MERCHANDISE "Hoodie" svcTwoImages).length = 8 :=
  ⟨rfl, rfl⟩

/-- **C1 (amended).**  `generateDrafts` issues exactly 4 requests (one per
creative variation) and joins them together; every image payload of each
response's first candidate is collected in order, so when each response yields
at most one payload the result has at most 4 images; a request yielding no
payload contributes nothing while the others are kept; and the result is empty
exactly when all four responses yield no payload — the call then returns the
empty list instead of raising a GenerationFailure. -/
theorem C1_generateDrafts_fanout (dna : BrandDNA) (insp : List Inspiration) (t : AssetType)
    (st : String) (svc : List Part → Option (List Part))
    (h : ∀ req, (draftImagesOf (svc req)).length ≤ 1) :
    (draftRequests dna insp t st).length = 4 ∧
    (generateDrafts dna insp t st svc).length ≤ 4 ∧
    (generateDrafts dna insp t st svc = [] ↔
      ∀ req ∈ draftRequests dna insp t st, draftImagesOf (svc req) = []) := by
  have hlen : (draftRequests dna insp t st).length = 4 := by
    simp [draftRequests, draftVariations]
  refine ⟨hlen, ?_, ?_⟩
  · have hle := flatten_length_le_of_forall_le_one
      (((draftRequests dna insp t st).map svc).map draftImagesOf) ?_
    · simpa [generateDrafts, hlen] using hle
    · intro x hx
      simp only [List.mem_map] at hx
      obtain ⟨r, ⟨req, _, rfl⟩, rfl⟩ := hx
      exact h req
  · simp only [generateDrafts, List.flatten_eq_nil_iff, List.mem_map]
    constructor
    · intro hall req hreq
      exact hall _ ⟨svc req, ⟨req, hreq, rfl⟩, rfl⟩
    · rintro hall x ⟨r, ⟨req, hreq, rfl⟩, rfl⟩
      exact hall req hreq

theorem C1_witness :
    (draftRequests dnaNoColors [] .MERCHANDISE "Hoodie").length = 4 ∧
    (generateDrafts dnaNoColors [] .MERCHANDISE "Hoodie" svcNoImages).length ≤ 4 ∧
    (generateDrafts dnaNoColors [] .MERCHANDISE "Hoodie" svcNoImages = [] ↔
      ∀ req ∈ draftRequests dnaNoColors [] .MERCHANDISE "Hoodie",
        draftImagesOf (svcNoImages req) = []) :=
  C1_generateDrafts_fanout dnaNoColors [] .MERCHANDISE "Hoodie" svcNoImages
    (fun _ => by simp [draftImagesOf, svcNoImages])

/-! ## AnnotationInterpreter: `analyzeAnnotations` (geminiService.ts lines 389-414)
and EditApplier: `editAsset` (lines 466-524) -/

/-- The text-extraction step of `analyzeAnnotations` (line 411):
`response.candidates?.[0]?.content?.parts?.[0]?.text || userInstruction`.
`respText` models the optional chain (absent or present text). -/
def analyzeAnnotationsText (respText : Option String) (userInstruction : String) : String :=
  jsOr respText userInstruction

/-- Shallow embedding of the whole `analyzeAnnotations` call: the oracle is
the service outcome, `.error e` a rejected `generateContent` promise.  The
source has no `try`/`catch`, so a rejection propagates to the caller. -/
def analyzeAnnotationsRun (svc : Except String (Option String)) (userInstruction : String) :
    Except String String :=
  match svc with
  | .error e => .error e
  | .ok t => .ok (jsOr t userInstruction)

/-- **C8 (counterexample).**  The claim says that when the service call errors
the function still returns the user's raw instruction.  On the code:
`analyzeAnnotations` has no `try`/`catch`, so a rejected service call
propagates as an error instead of yielding the raw instruction. -/
theorem C8_counterexample :
    analyzeAnnotationsRun (.error "service unavailable") "make it red"
        = .error "service unavailable" ∧
    analyzeAnnotationsRun (.error "service unavailable") "make it red" ≠ .ok "make it red" :=
  ⟨rfl, by simp [analyzeAnnotationsRun]⟩

/-- **C8 (amended).**  When the service call succeeds, `analyzeAnnotations`
always produces a text string: the response text when present and nonempty,
otherwise the user's raw instruction unchanged.  A service-call error, however,
propagates to the caller (there is no catch), rather than falling back to the
raw instruction. -/
theorem C8_analyzeAnnotations_fallback :
    (∀ instr, analyzeAnnotationsRun (.ok none) instr = .ok instr) ∧
    (∀ instr, analyzeAnnotationsRun (.ok (some "")) instr = .ok instr) ∧
    (∀ instr t, t ≠ "" → analyzeAnnotationsRun (.ok (some t)) instr = .ok t) ∧
    (∀ instr e, analyzeAnnotationsRun (.error e) instr = .error e) := by
  refine ⟨fun _ => rfl, fun _ => rfl, fun instr t ht => ?_, fun _ _ => rfl⟩
  simp [analyzeAnnotationsRun, jsOr, ht]

theorem C8_witness :
    analyzeAnnotationsRun (.ok none) "make it red" = .ok "make it red" ∧
    analyzeAnnotationsRun (.ok (some "")) "make it red" = .ok "make it red" ∧
    analyzeAnnotationsRun (.ok (some "recolor the sleeve")) "make it red"
        = .ok "recolor the sleeve" ∧
    analyzeAnnotationsRun (.error "boom") "make it red" = .error "boom" :=
  ⟨C8_analyzeAnnotations_fallback.1 "make it red",
   C8_analyzeAnnotations_fallback.2.1 "make it red",
   C8_analyzeAnnotations_fallback.2.2.1 "make it red" "recolor the sleeve" (by decide),
   C8_analyzeAnnotations_fallback.2.2.2 "make it red" "boom"⟩

/-- The request text of the masked branch of `editAsset` (lines 488-496). -/
def maskEditText (finalInstruction : String) : String :=
  "Edit this image based on the following instruction. The bright green annotations show the areas to modify: "
    ++ finalInstruction
    ++ ". \n\nIMPORTANT: \n- PRESERVE all original details, elements, colors, text, and composition EXACTLY as they are\n- ONLY modify the specific areas marked with bright green annotations\n- DO NOT remove or change anything unless explicitly instructed to do so\n- Remove all green annotations from the final result and return a clean edited image\n- Keep the same style, quality, and overall look of the original"

/-- The request text of the freeform branch of `editAsset` (lines 497-503). -/
def freeformEditText (finalInstruction : String) : String :=
  finalInstruction
    ++ "\n\nIMPORTANT:\n- PRESERVE all original details, elements, colors, text, and composition EXACTLY as they are  \n- ONLY make the specific changes requested in the instruction\n- DO NOT remove or change anything unless explicitly instructed to do so\n- Keep the same style, quality, and overall look of the original"

/-- The instruction text `editAsset` sends (lines 476-505): with a mask, the
instruction is first passed through the annotation interpreter
(`finalInstruction = await analyzeAnnotations(maskImage, instruction)`) and
wrapped in the masked template; without one, it is wrapped in the freeform
template.  `annotRespText` is the interpreter's (successful) service text. -/
def editInstructionText (annotRespText : Option String) (maskImage : Option String)
    (instruction : String) : String :=
  let finalInstruction :=
    if jsTruthyOpt maskImage then analyzeAnnotationsText annotRespText instruction
    else instruction
  if jsTruthyOpt maskImage then maskEditText finalInstruction
  else freeformEditText finalInstruction

/-- The outbound parts of `editAsset` (lines 486-505): the composite image is
used in place of the original when a mask is supplied. -/
def editAssetParts (annotRespText : Option String) (originalImage : String)
    (maskImage : Option String) (instruction : String) : List Part :=
  let imageToUse := if jsTruthyOpt maskImage then maskImage.getD "" else originalImage
  [ ⟨some (dataUrlPayload imageToUse), none⟩,
    ⟨none, some (editInstructionText annotRespText maskImage instruction)⟩ ]

theorem containsStr_middle (a p b : String) : ContainsStr (a ++ p ++ b) p :=
  ((containsStr_self p).appendLeft a).appendRight b

set_option maxRecDepth 8192 in
/-- **C3.**  With a mask/annotation composite, `editAsset` first passes the
instruction through the annotation interpreter and its outbound request text
tells the model to preserve everything outside the annotated regions
(`PRESERVE all original details...`, `ONLY modify the specific areas marked
with bright green annotations`) and to remove the annotation markings
(`Remove all green annotations from the final result...`).  Without a mask,
the outbound text carries the conservative-edit directive (`ONLY make the
specific changes requested in the instruction`, `DO NOT remove or change
anything unless explicitly instructed to do so`).  The preservation directive
is present in both branches, i.e. in every edit call. -/
theorem C3_editAsset_directives (annot : Option String) (instr m : String) (hm : m ≠ "") :
    (editInstructionText annot (some m) instr
        = maskEditText (analyzeAnnotationsText annot instr)) ∧
    ContainsStr (editInstructionText annot (some m) instr)
      "- PRESERVE all original details, elements, colors, text, and composition EXACTLY as they are" ∧
    ContainsStr (editInstructionText annot (some m) instr)
      "- ONLY modify the specific areas marked with bright green annotations" ∧
    ContainsStr (editInstructionText annot (some m) instr)
      "- Remove all green annotations from the final result and return a clean edited image" ∧
    ContainsStr (editInstructionText annot (some m) instr)
      "- DO NOT remove or change anything unless explicitly instructed to do so" ∧
    (editInstructionText annot none instr = freeformEditText instr) ∧
    ContainsStr (editInstructionText annot none instr)
      "- PRESERVE all original details, elements, colors, text, and composition EXACTLY as they are" ∧
    ContainsStr (editInstructionText annot none instr)
      "- ONLY make the specific changes requested in the instruction" ∧
    ContainsStr (editInstructionText annot none instr)
      "- DO NOT remove or change anything unless explicitly instructed to do so" := by
  have hmask : editInstructionText annot (some m) instr
      = maskEditText (analyzeAnnotationsText annot instr) := by
    simp [editInstructionText, jsTruthyOpt, jsTruthy, hm]
  have hfree : editInstructionText annot none instr = freeformEditText instr := by
    simp [editInstructionText, jsTruthyOpt]
  refine ⟨hmask, ?_, ?_, ?_, ?_, hfree, ?_, ?_, ?_⟩
  · rw [hmask, maskEditText]
    refine ContainsStr.appendLeft ?_ _
    exact containsStr_middle ". \n\nIMPORTANT: \n"
      "- PRESERVE all original details, elements, colors, text, and composition EXACTLY as they are"
      "\n- ONLY modify the specific areas marked with bright green annotations\n- DO NOT remove or change anything unless explicitly instructed to do so\n- Remove all green annotations from the final result and return a clean edited image\n- Keep the same style, quality, and overall look of the original"
  · rw [hmask, maskEditText]
    refine ContainsStr.appendLeft ?_ _
    exact containsStr_middle
      ". \n\nIMPORTANT: \n- PRESERVE all original details, elements, colors, text, and composition EXACTLY as they are\n"
      "- ONLY modify the specific areas marked with bright green annotations"
      "\n- DO NOT remove or change anything unless explicitly instructed to do so\n- Remove all green annotations from the final result and return a clean edited image\n- Keep the same style, quality, and overall look of the original"
  · rw [hmask, maskEditText]
    refine ContainsStr.appendLeft ?_ _
    exact containsStr_middle
      ". \n\nIMPORTANT: \n- PRESERVE all original details, elements, colors, text, and composition EXACTLY as they are\n- ONLY modify the specific areas marked with bright green annotations\n- DO NOT remove or change anything unless explicitly instructed to do so\n"
      "- Remove all green annotations from the final result and return a clean edited image"
      "\n- Keep the same style, quality, and overall look of the original"
  · rw [hmask, maskEditText]
    refine ContainsStr.appendLeft ?_ _
    exact containsStr_middle
      ". \n\nIMPORTANT: \n- PRESERVE all original details, elements, colors, text, and composition EXACTLY as they are\n- ONLY modify the specific areas marked with bright green annotations\n"
      "- DO NOT remove or change anything unless explicitly instructed to do so"
      "\n- Remove all green annotations from the final result and return a clean edited image\n- Keep the same style, quality, and overall look of the original"
  · rw [hfree, freeformEditText]
    refine ContainsStr.appendLeft ?_ _
    exact containsStr_middle "\n\nIMPORTANT:\n"
      "- PRESERVE all original details, elements, colors, text, and composition EXACTLY as they are"
      "  \n- ONLY make the specific changes requested in the instruction\n- DO NOT remove or change anything unless explicitly instructed to do so\n- Keep the same style, quality, and overall look of the original"
  · rw [hfree, freeformEditText]
    refine ContainsStr.appendLeft ?_ _
    exact containsStr_middle
      "\n\nIMPORTANT:\n- PRESERVE all original details, elements, colors, text, and composition EXACTLY as they are  \n"
      "- ONLY make the specific changes requested in the instruction"
      "\n- DO NOT remove or change anything unless explicitly instructed to do so\n- Keep the same style, quality, and overall look of the original"
  · rw [hfree, freeformEditText]
    refine ContainsStr.appendLeft ?_ _
    exact containsStr_middle
      "\n\nIMPORTANT:\n- PRESERVE all original details, elements, colors, text, and composition EXACTLY as they are  \n- ONLY make the specific changes requested in the instruction\n"
      "- DO NOT remove or change anything unless explicitly instructed to do so"
      "\n- Keep the same style, quality, and overall look of the original"

theorem C3_witness :
    (editInstructionText (some "recolor the hood") (some "data:image/png;base64,MM") "fix it"
        = maskEditText (analyzeAnnotationsText (some "recolor the hood") "fix it")) ∧
    ContainsStr (editInstructionText (some "recolor the hood")
        (some "data:image/png;base64,MM") "fix it")
      "- PRESERVE all original details, elements, colors, text, and composition EXACTLY as they are" ∧
    ContainsStr (editInstructionText (some "recolor the hood")
        (some "data:image/png;base64,MM") "fix it")
      "- ONLY modify the specific areas marked with bright green annotations" ∧
    ContainsStr (editInstructionText (some "recolor the hood")
        (some "data:image/png;base64,MM") "fix it")
      "- Remove all green annotations from the final result and return a clean edited image" ∧
    ContainsStr (editInstructionText (some "recolor the hood")
        (some "data:image/png;base64,MM") "fix it")
      "- DO NOT remove or change anything unless explicitly instructed to do so" ∧
    (editInstructionText (some "recolor the hood") none "fix it" = freeformEditText "fix it") ∧
    ContainsStr (editInstructionText (some "recolor the hood") none "fix it")
      "- PRESERVE all original details, elements, colors, text, and composition EXACTLY as they are" ∧
    ContainsStr (editInstructionText (some "recolor the hood") none "fix it")
      "- ONLY make the specific changes requested in the instruction" ∧
    ContainsStr (editInstructionText (some "recolor the hood") none "fix it")
      "- DO NOT remove or change anything unless explicitly instructed to do so" :=
  C3_editAsset_directives (some "recolor the hood") "fix it" "data:image/png;base64,MM"
    (by decide)

/-! ## AsyncJobPoller: `generateVisualizationVideo` (geminiService.ts lines
794-838) and `generateRealWorldPreview` (lines 577-791) -/

/-- The observable state of a video operation handle: the `done` flag and the
result chain `operation.response?.generatedVideos?.[0]?.video?.uri`. -/
structure VideoOp where
  done : Bool
  uri : Option String
deriving DecidableEq, Repr

/-- The sleep between polls in milliseconds (`setTimeout(resolve, 5000)`). -/
def pollIntervalMs : Nat := 5000

/-- The unbounded `while (!operation.done)` loop of
`generateVisualizationVideo` (lines 822-828), observed for `fuel` polls:
the fuel only truncates our observation, the loop itself has no bound
(`pollCount` is incremented for logging only).  `refetch` models
`ai.operations.getVideosOperation`. -/
def videoPollLoop (refetch : VideoOp → VideoOp) : VideoOp → Nat → VideoOp
  | op, 0 => op
  | op, fuel + 1 => if op.done then op else videoPollLoop refetch (refetch op) fuel

/-- The bounded loop of `generateRealWorldPreview`
(`while (!operation.done && pollCount < 60)`, lines 775-781), returning the
final handle and poll count.  Fuel-indexed for termination; the `count < 60`
guard is the source's bound. -/
def previewPollLoop (refetch : VideoOp → VideoOp) : Nat → VideoOp → Nat → VideoOp × Nat
  | 0, op, count => (op, count)
  | fuel + 1, op, count =>
    if !op.done && count < 60 then previewPollLoop refetch fuel (refetch op) (count + 1)
    else (op, count)

/-- `generateRealWorldPreview`'s loop as invoked (`pollCount = 0`): fuel 61
exceeds what the count guard permits, so the guard is what stops a
non-completing sequence. -/
def previewPoll (refetch : VideoOp → VideoOp) (op : VideoOp) : VideoOp × Nat :=
  previewPollLoop refetch 61 op 0

/-- URI extraction and key append of `generateRealWorldPreview`
(lines 783-790): a missing URI raises the generic failure; otherwise the
process API key is appended to the returned URI. -/
def previewOutcome (apiKey : String) (final : VideoOp) : Except String String :=
  match final.uri with
  | some u => .ok (u ++ "&key=" ++ apiKey)
  | none => .error "Preview generation failed"

/-- URI extraction and key append of `generateVisualizationVideo`
(lines 830-837). -/
def videoOutcome (apiKey : String) (final : VideoOp) : Except String String :=
  match final.uri with
  | some u => .ok (u ++ "&key=" ++ apiKey)
  | none => .error "Video generation failed"

/-- `generateVisualizationVideo` observed for `fuel` polls: `none` while the
unbounded loop is still running. -/
def generateVisualizationVideoRun (refetch : VideoOp → VideoOp) (op : VideoOp)
    (fuel : Nat) (apiKey : String) : Option (Except String String) :=
  let final := videoPollLoop refetch op fuel
  if final.done then some (videoOutcome apiKey final) else none

/-- A handle that is not done and has no result URI. -/
def neverDone : VideoOp := ⟨false, none⟩

theorem videoPollLoop_stuck (refetch : VideoOp → VideoOp)
    (h : ∀ o, (refetch o).done = false) :
    ∀ (fuel : Nat) (op : VideoOp), op.done = false →
      (videoPollLoop refetch op fuel).done = false
  | 0, op, hop => hop
  | fuel + 1, op, hop => by
    simp only [videoPollLoop, hop, if_false, Bool.false_eq_true]
    exact videoPollLoop_stuck refetch h fuel (refetch op) (h op)

theorem previewPollLoop_count_le (refetch : VideoOp → VideoOp) :
    ∀ (fuel : Nat) (op : VideoOp) (count : Nat),
      (previewPollLoop refetch fuel op count).2 ≤ max count 60
  | 0, op, count => by simp [previewPollLoop]
  | fuel + 1, op, count => by
    simp only [previewPollLoop]
    by_cases hc : (!op.done && decide (count < 60)) = true
    · have hlt : count < 60 := by
        simpa using (Bool.and_eq_true_iff.mp hc).2
      rw [if_pos hc]
      have := previewPollLoop_count_le refetch fuel (refetch op) (count + 1)
      calc (previewPollLoop refetch fuel (refetch op) (count + 1)).2
          ≤ max (count + 1) 60 := this
        _ ≤ max count 60 := by
            have : count + 1 ≤ 60 := hlt
            simp [Nat.max_le, Nat.le_max_right, this]
    · rw [if_neg hc]
      exact Nat.le_max_left _ _

theorem previewPollLoop_stuck (refetch : VideoOp → VideoOp)
    (hd : ∀ o, (refetch o).done = false) (hu : ∀ o, (refetch o).uri = none) :
    ∀ (fuel : Nat) (op : VideoOp) (count : Nat), op.done = false → op.uri = none →
      count ≤ 60 →
      (previewPollLoop refetch fuel op count).1.done = false ∧
      (previewPollLoop refetch fuel op count).1.uri = none ∧
      (previewPollLoop refetch fuel op count).2 = min (count + fuel) 60
  | 0, op, count, hop, hopu, hc => by
    simp only [previewPollLoop]
    exact ⟨hop, hopu, by omega⟩
  | fuel + 1, op, count, hop, hopu, hc => by
    simp only [previewPollLoop, hop, Bool.not_false, Bool.true_and]
    by_cases hlt : count < 60
    · rw [if_pos (by simpa using hlt)]
      have ih := previewPollLoop_stuck refetch hd hu fuel (refetch op) (count + 1)
        (hd op) (hu op) (by omega)
      exact ⟨ih.1, ih.2.1, by rw [ih.2.2]; omega⟩
    · rw [if_neg (by simpa using hlt)]
      exact ⟨hop, hopu, by omega⟩

/-- **C2 (counterexample).**  The claim says every video-polling loop performs
at most 60 polls and surfaces a never-completing handle as a distinct TimedOut
outcome.  On the code: with a handle that never reports completion,
`generateVisualizationVideo`'s loop is still running after 61 polls (it has no
bound at all), and `generateRealWorldPreview` — the only bounded loop — stops
after 60 polls but then raises the same generic `"Preview generation failed"`
error that a completed-but-empty response raises: there is no distinct
TimedOut outcome. -/
theorem C2_counterexample :
    (videoPollLoop id neverDone 61).done = false ∧
    previewPoll id neverDone = (neverDone, 60) ∧
    previewOutcome "KEY" (previewPoll id neverDone).1 = .error "Preview generation failed" ∧
    previewOutcome "KEY" ⟨true, none⟩ = .error "Preview generation failed" :=
  ⟨rfl, rfl, rfl, rfl⟩

/-- **C2 (amended).**  Only `generateRealWorldPreview`'s polling loop is
bounded: its poll count never exceeds 60 (for any fuel, i.e. the bound comes
from the `pollCount < 60` guard), with a 5-second sleep between polls; on a
handle that never reports completion it stops after exactly 60 polls and
surfaces the generic `"Preview generation failed"` error — the same outcome as
an ordinary no-URI failure, not a distinct TimedOut.
`generateVisualizationVideo`'s loop has no poll bound: on a never-completing
handle it is still running after any number of polls. -/
theorem C2_poll_bound (refetch : VideoOp → VideoOp) (k : String) :
    pollIntervalMs = 5000 ∧
    (∀ (fuel : Nat) (op : VideoOp) (count : Nat),
      (previewPollLoop refetch fuel op count).2 ≤ max count 60) ∧
    (∀ op : VideoOp, (previewPoll refetch op).2 ≤ 60) ∧
    (∀ op : VideoOp, op.done = false → op.uri = none →
      (∀ o, (refetch o).done = false) → (∀ o, (refetch o).uri = none) →
      (previewPoll refetch op).2 = 60 ∧
      previewOutcome k (previewPoll refetch op).1 = .error "Preview generation failed" ∧
      ∀ n, (videoPollLoop refetch op n).done = false) := by
  refine ⟨rfl, previewPollLoop_count_le refetch, fun op => ?_, fun op hop hopu hd hu => ?_⟩
  · simpa using previewPollLoop_count_le refetch 61 op 0
  · have h := previewPollLoop_stuck refetch hd hu 61 op 0 hop hopu (by omega)
    refine ⟨by simpa [previewPoll] using h.2.2, ?_, fun n => videoPollLoop_stuck refetch hd n op hop⟩
    have huri : (previewPoll refetch op).1.uri = none := h.2.1
    simp [previewOutcome, huri]

theorem C2_witness :
    pollIntervalMs = 5000 ∧
    (∀ (fuel : Nat) (op : VideoOp) (count : Nat),
      (previewPollLoop id fuel op count).2 ≤ max count 60) ∧
    (∀ op : VideoOp, (previewPoll id op).2 ≤ 60) ∧
    (∀ op : VideoOp, op.done = false → op.uri = none →
      (∀ o, (id o : VideoOp).done = false) → (∀ o, (id o : VideoOp).uri = none) →
      (previewPoll id op).2 = 60 ∧
      previewOutcome "KEY" (previewPoll id op).1 = .error "Preview generation failed" ∧
      ∀ n, (videoPollLoop id op n).done = false) :=
  C2_poll_bound id "KEY"

/-- **C10.**  Every successfully completed video generation returns the
service's video URI with the process API key appended as an `&key=` query
parameter — in `generateVisualizationVideo` and in `generateRealWorldPreview`
alike (`return videoUri + "&key=" + process.env.API_KEY`). -/
theorem C10_video_url_embeds_key (refetch : VideoOp → VideoOp) (op : VideoOp)
    (fuel : Nat) (k u : String)
    (hdone : (videoPollLoop refetch op fuel).done = true)
    (huri : (videoPollLoop refetch op fuel).uri = some u) :
    generateVisualizationVideoRun refetch op fuel k = some (.ok (u ++ "&key=" ++ k)) ∧
    ∀ f : VideoOp, f.uri = some u → previewOutcome k f = .ok (u ++ "&key=" ++ k) := by
  constructor
  · simp [generateVisualizationVideoRun, hdone, videoOutcome, huri]
  · intro f hf
    simp [previewOutcome, hf]

theorem C10_witness :
    generateVisualizationVideoRun id ⟨true, some "https://video.example/v1"⟩ 0 "SECRET"
        = some (.ok "https://video.example/v1&key=SECRET") ∧
    ∀ f : VideoOp, f.uri = some "https://video.example/v1" →
      previewOutcome "SECRET" f = .ok ("https://video.example/v1" ++ "&key=" ++ "SECRET") := by
  have h := C10_video_url_embeds_key id ⟨true, some "https://video.example/v1"⟩ 0
    "SECRET" "https://video.example/v1" rfl rfl
  exact ⟨by simpa using h.1, h.2⟩

/-! ## Brand save: `handleSubmit` (BrandManager.tsx lines 84-122) -/

inductive SubmitOutcome where
  | blocked (warning : String)
  | saved (logoImage : Option String)
deriving DecidableEq, Repr

/-- Shallow embedding of the logo decision in `handleSubmit`: `url` is
`formData.url`, `logoPreview` the manually uploaded logo, `resultLogo` the
auto-extracted `result.logoImage`.  The source blocks the save (sets the
warning and returns before `onSave`) only when a URL was provided and both
logos are absent (lines 100-104); otherwise it commits
`logoPreview || result.logoImage` (lines 107-112). -/
def handleSubmitLogo (url : String) (logoPreview resultLogo : Option String) :
    SubmitOutcome :=
  if jsTruthy url && !jsTruthyOpt resultLogo && !jsTruthyOpt logoPreview then
    .blocked "⚠️ Auto-extraction failed. Please upload logo manually to prevent random generation."
  else
    .saved (if jsTruthyOpt logoPreview then logoPreview else resultLogo)

/-- **C7 (counterexample).**  The claim says every save where both the manual
upload and the auto-extracted logo are absent is blocked.  On the code the
block is guarded by `formData.url`: with no website URL and both logos absent,
the save proceeds and commits a brand specification without a logo. -/
theorem C7_counterexample : handleSubmitLogo "" none none = .saved none := rfl

/-- **C7 (amended).**  A manually uploaded logo is always preferred: whenever
the manual upload is present the committed specification carries it, whatever
the auto-extracted logo is.  The save is blocked with the warning only when a
website URL was provided and both logos are absent; when no URL was provided,
the save proceeds even with both logos absent, committing the (absent)
auto-extracted logo. -/
theorem C7_handleSubmit_logo_precedence (url : String) (lp rl : Option String) :
    (jsTruthyOpt lp = true → handleSubmitLogo url lp rl = .saved lp) ∧
    (jsTruthy url = true → jsTruthyOpt lp = false → jsTruthyOpt rl = false →
      handleSubmitLogo url lp rl =
        .blocked "⚠️ Auto-extraction failed. Please upload logo manually to prevent random generation.") ∧
    (jsTruthy url = false → jsTruthyOpt lp = false →
      handleSubmitLogo url lp rl = .saved rl) := by
  refine ⟨fun h => ?_, fun hu hl hr => ?_, fun hu hl => ?_⟩
  · simp [handleSubmitLogo, h]
  · simp [handleSubmitLogo, hu, hl, hr]
  · simp [handleSubmitLogo, hu, hl]

theorem C7_witness :
    handleSubmitLogo "https://acme.com" (some "manual-logo") (some "auto-logo")
        = .saved (some "manual-logo") ∧
    handleSubmitLogo "https://acme.com" none none
        = .blocked "⚠️ Auto-extraction failed. Please upload logo manually to prevent random generation." ∧
    handleSubmitLogo "" none none = .saved none :=
  ⟨(C7_handleSubmit_logo_precedence "https://acme.com" (some "manual-logo")
      (some "auto-logo")).1 (by decide),
   (C7_handleSubmit_logo_precedence "https://acme.com" none none).2.1
      (by decide) (by decide) (by decide),
   (C7_handleSubmit_logo_precedence "" none none).2.2 (by decide) (by decide)⟩

end BrandForge
